import Mathlib

/-!
Verification of the portfolio recomputation engine of `new_app.py`
(a Streamlit stock-portfolio tracker backed by a Google-Sheets table).

The embedding models the submit branch of `show_add_entry` (the spec's
`add_entry` contract), together with `save_data` and `get_current_price`.
Currency amounts are rationals; `round(x, 2)` is modelled as rounding to
the nearest multiple of 1/100.  Python exceptions are modelled by
`Except`: the generic `except` handler at the end of `show_add_entry`
corresponds to the `calcError` case.  Dates are day numbers (integers);
`datetime.today().date()` is the explicit parameter `today`.
-/

/-- Rounding to two decimal places, the model of Python `round(x, 2)`.
(Python uses banker's rounding on floats for exact ties; ties do not
occur in any statement below.) -/
def round2 (q : ℚ) : ℚ := ((round (q * 100) : ℤ) : ℚ) / 100

/-- Model of Python `str.upper()` on ASCII ticker strings: uppercase
every character. -/
def upper (s : String) : String := String.mk (s.data.map Char.toUpper)

/-- One row of the ledger table, following the sheet schema of
`new_app.py` (columns listed at spec §6).  Fields that the code can
leave blank (`""` in the sheet / `NaT` / `None`) are `Option`s:
`b_date` and `days` are blank on the Total row and on rows whose
`B_Date` fails to parse, `current_spy` is blank when the SPY quote was
unavailable, `holding` is blank on the Total row. -/
structure Row where
  ticker : String
  shares : ℚ
  buy_price : ℚ
  current_price : ℚ
  stop_loss : ℚ
  stop_loss_profit : ℚ
  dollar_up_down : ℚ
  percent_up_down : ℚ
  stop_loss_percent : ℚ
  buy_value : ℚ
  current_value : ℚ
  b_date : Option ℤ
  days : Option ℤ
  current_spy : Option ℚ
  spy_perc : ℚ
  holding : Option ℚ
  profit_portfolio : ℚ
  stoploss_portfolio : ℚ
  remark : String
  deriving DecidableEq, Repr

/-- The user-supplied form fields of the add-entry form
(`new_app.py` lines 213, 235-240).  The `shares` widget enforces a
minimum of 1 but the model does not bake that in. -/
structure EntryInput where
  ticker : String
  shares : ℕ
  buy_price : ℚ
  stop_loss : ℚ
  pur_spy : ℚ
  remark : String
  deriving DecidableEq, Repr

/-- The failure modes of the submit branch of `show_add_entry`:
`emptyTicker` is the line-250 check, `priceUnavailable` the line-256
falsy-price check, `calcError` the generic handler at lines 335-336
(any exception raised during the computation, e.g. a
`ZeroDivisionError`). -/
inductive AddError where
  | emptyTicker
  | priceUnavailable
  | calcError
  deriving DecidableEq, Repr

/-- Model of `get_current_price` (lines 137-146): the last close of the
one-day history, rounded to 2 decimals; `none` when the history is
empty or the lookup raised. -/
def get_current_price (hist : List ℚ) : Option ℚ :=
  match hist.getLast? with
  | none => none
  | some c => some (round2 c)

/-- The new row constructed at lines 264-295 from the form input, the
resolved current price `p`, the fetched SPY quote and the already
computed `SPY_Per%`.  Callers only invoke this after the checks that
mirror the places where Python would raise `ZeroDivisionError`
(`buy_price = 0`, `buy_value = 0`), so the guarded total divisions
below agree with the source. -/
def mkNewRow (today : ℤ) (inp : EntryInput) (p : ℚ) (spy : Option ℚ)
    (spy_perc : ℚ) : Row :=
  let buy_value : ℚ := inp.shares * inp.buy_price
  let current_value : ℚ := inp.shares * p
  let stop_loss_profit : ℚ := (inp.stop_loss - inp.buy_price) * inp.shares
  let dollar_up_down : ℚ := current_value - buy_value
  let percent_up_down : ℚ := (p / inp.buy_price - 1) * 100
  let stop_loss_percent : ℚ := stop_loss_profit / buy_value * 100
  { ticker := upper inp.ticker
    shares := (inp.shares : ℚ)
    buy_price := inp.buy_price
    current_price := p
    stop_loss := inp.stop_loss
    stop_loss_profit := round2 stop_loss_profit
    dollar_up_down := round2 dollar_up_down
    percent_up_down := round2 percent_up_down
    stop_loss_percent := round2 stop_loss_percent
    buy_value := round2 buy_value
    current_value := round2 current_value
    b_date := some today
    days := some 0
    current_spy := spy
    spy_perc := spy_perc
    holding := some 1
    profit_portfolio := 0
    stoploss_portfolio := 0
    remark := inp.remark }

/-- Lines 298-299: `Days` of every row recomputed from its `B_Date`
against today's date; rows without a parseable date get a blank. -/
def refreshDays (today : ℤ) (df : List Row) : List Row :=
  df.map (fun r => { r with days := r.b_date.map (fun d => today - d) })

/-- Lines 306-314: ledger-wide sums of `$ up/down` and
`Stop Loss Profit`, then each row's two portfolio-share columns; a
share is 0 when its denominator is exactly 0 (the falsy test in the
source). -/
def assignShares (df : List Row) : List Row :=
  let total_up := (df.map Row.dollar_up_down).sum
  let total_sl := (df.map Row.stop_loss_profit).sum
  df.map (fun r =>
    { r with
      profit_portfolio :=
        if total_up = 0 then 0 else round2 (r.dollar_up_down / total_up * 100)
      stoploss_portfolio :=
        if total_sl = 0 then 0 else round2 (r.stop_loss_profit / total_sl * 100) })

/-- Lines 316-327: the synthetic Total row.  Columns in
`exclude_from_total` get `"Total"` (Ticker) or a blank; numeric columns
are summed; the two portfolio-share columns are overwritten with 100.0.
`Days` and `Current_Spy` are summed only when every value is present
(otherwise pandas sees a non-numeric column and writes a blank). -/
def mkTotalRow (df : List Row) : Row :=
  { ticker := "Total"
    shares := (df.map Row.shares).sum
    buy_price := (df.map Row.buy_price).sum
    current_price := (df.map Row.current_price).sum
    stop_loss := (df.map Row.stop_loss).sum
    stop_loss_profit := (df.map Row.stop_loss_profit).sum
    dollar_up_down := (df.map Row.dollar_up_down).sum
    percent_up_down := (df.map Row.percent_up_down).sum
    stop_loss_percent := (df.map Row.stop_loss_percent).sum
    buy_value := (df.map Row.buy_value).sum
    current_value := (df.map Row.current_value).sum
    b_date := none
    days := if df.all (fun r => r.days.isSome)
            then some ((df.map (fun r => r.days.getD 0)).sum) else none
    current_spy := if df.all (fun r => r.current_spy.isSome)
                   then some ((df.map (fun r => r.current_spy.getD 0)).sum) else none
    spy_perc := (df.map Row.spy_perc).sum
    holding := none
    profit_portfolio := 100
    stoploss_portfolio := 100
    remark := "" }

/-- Lines 297-328 after the new row exists: append it, refresh `Days`
for every row, strip `Total` rows again, assign the portfolio shares,
and append the freshly built Total row. -/
def computeLedger (today : ℤ) (df1 : List Row) : List Row :=
  let df2 := refreshDays today df1
  let df3 := df2.filter (fun r => r.ticker ≠ "Total")
  let df4 := assignShares df3
  df4 ++ [mkTotalRow df4]

/-- The submit branch of `show_add_entry` (lines 249-336) as a pure
function of the loaded ledger: validate the ticker (line 250) and the
resolved price (line 256, a falsy test, so a price of 0 also fails),
strip the Total row (line 262), fail like the generic handler wherever
Python would raise (`buy_price = 0` at line 269, `buy_value = 0` at
line 270, a missing SPY quote with a truthy `pur_spy` at line 273),
then build the new ledger. -/
def add_entry (ledger : List Row) (today : ℤ) (inp : EntryInput)
    (price : Option ℚ) (spy : Option ℚ) : Except AddError (List Row) :=
  if inp.ticker = "" then .error .emptyTicker else
  match price with
  | none => .error .priceUnavailable
  | some p =>
    if p = 0 then .error .priceUnavailable else
    let df0 := ledger.filter (fun r => r.ticker ≠ "Total")
    if inp.buy_price = 0 then .error .calcError else
    if (inp.shares : ℚ) * inp.buy_price = 0 then .error .calcError else
    if inp.pur_spy ≠ 0 ∧ spy = none then .error .calcError else
    let spy_perc : ℚ :=
      if inp.pur_spy ≠ 0
      then round2 ((spy.getD 0 - inp.pur_spy) / inp.pur_spy * 100) else 0
    .ok (computeLedger today (df0 ++ [mkNewRow today inp p spy spy_perc]))

/-- The ways a `save_data` call (lines 128-134) can play out against
the remote sheet: `connectFail` (connect returns `None`, so
`sheet.clear()` raises before touching the sheet), `clearFail`
(`clear()` itself raises), `writeFail` (`clear()` succeeded but
`set_with_dataframe` raised), or `success`. -/
inductive SaveOutcome where
  | success
  | connectFail
  | clearFail
  | writeFail
  deriving DecidableEq, Repr

/-- `save_data` (lines 128-134): `sheet.clear()` then
`set_with_dataframe(sheet, df)`, with every exception caught and
reported as a message.  The function returns the resulting stored
table: a failure before the clear leaves the old contents, a failure
after the clear leaves the sheet empty. -/
def save_data (store : List Row) (df : List Row) (oc : SaveOutcome) : List Row :=
  match oc with
  | .success => df
  | .connectFail => store
  | .clearFail => store
  | .writeFail => []

/-- The outcome `show_add_entry` reports to the user: the success
message of line 330 or one of the error messages. -/
inductive Outcome where
  | success
  | failure (e : AddError)
  deriving DecidableEq, Repr

/-- The state `show_add_entry` can read and write: the stored table and
the cached price in `st.session_state` (`current_price`). -/
structure AppState where
  store : List Row
  cachedPrice : Option ℚ
  deriving DecidableEq, Repr

/-- Line 254: the cached session price is used when present, otherwise
the freshly fetched one. -/
def pickPrice (cached fetched : Option ℚ) : Option ℚ :=
  match cached with
  | some p => some p
  | none => fetched

/-- The submit branch of `show_add_entry` with its effects on the
stored table and the session state: on success the ledger is handed to
`save_data` (whose failures are swallowed, line 133), the success
message is shown and the cached price is cleared (lines 329-334); on
any error the state is untouched. -/
def show_add_entry (s : AppState) (today : ℤ) (inp : EntryInput)
    (fetched : Option ℚ) (spy : Option ℚ) (oc : SaveOutcome) :
    AppState × Outcome :=
  match add_entry s.store today inp (pickPrice s.cachedPrice fetched) spy with
  | .error e => (s, .failure e)
  | .ok out => ({ store := save_data s.store out oc, cachedPrice := none }, .success)

/-! ## Structural lemmas about the recomputation pipeline -/

/-- Inverting a successful `add_entry`: the checks all passed, the
price was resolved, and the output is the recomputed ledger built from
the stripped input plus the new row. -/
theorem add_entry_ok_inv {ledger : List Row} {today : ℤ} {inp : EntryInput}
    {price spy : Option ℚ} {out : List Row}
    (h : add_entry ledger today inp price spy = .ok out) :
    ∃ p spyPerc, price = some p ∧
      out = computeLedger today
        ((ledger.filter (fun r => r.ticker ≠ "Total")) ++ [mkNewRow today inp p spy spyPerc]) := by
  unfold add_entry at h
  by_cases h1 : inp.ticker = ""
  · simp [h1] at h
  cases price with
  | none => simp [h1] at h
  | some p =>
    by_cases h2 : p = 0
    · simp [h1, h2] at h
    by_cases h3 : inp.buy_price = 0
    · simp [h1, h2, h3] at h
    by_cases h4 : (inp.shares : ℚ) * inp.buy_price = 0
    · simp [h1, h2, h3, h4] at h
    by_cases h5 : inp.pur_spy ≠ 0 ∧ spy = none
    · simp [h1, h2, h3, h4, h5] at h
    refine ⟨p,
      (if inp.pur_spy ≠ 0
       then round2 ((spy.getD 0 - inp.pur_spy) / inp.pur_spy * 100) else 0), rfl, ?_⟩
    simp [h1, h2, h3, h4, h5] at h
    simp only [ne_eq, ite_not, decide_not]
    exact h.symm

/-- Membership in `assignShares`: each output row is an input row with
only the two portfolio-share columns rewritten. -/
theorem mem_assignShares {df : List Row} {r : Row} (h : r ∈ assignShares df) :
    ∃ r0 ∈ df,
      r = { r0 with
            profit_portfolio :=
              if (df.map Row.dollar_up_down).sum = 0 then 0
              else round2 (r0.dollar_up_down / (df.map Row.dollar_up_down).sum * 100)
            stoploss_portfolio :=
              if (df.map Row.stop_loss_profit).sum = 0 then 0
              else round2 (r0.stop_loss_profit / (df.map Row.stop_loss_profit).sum * 100) } := by
  simp only [assignShares, List.mem_map] at h
  obtain ⟨r0, hr0, hr⟩ := h
  exact ⟨r0, hr0, hr.symm⟩

/-- Assigning the portfolio shares leaves the `$ up/down` column alone. -/
theorem assignShares_map_dollar (df : List Row) :
    (assignShares df).map Row.dollar_up_down = df.map Row.dollar_up_down := by
  simp only [assignShares, List.map_map]
  rfl

/-- Assigning the portfolio shares leaves the `Stop Loss Profit` column alone. -/
theorem assignShares_map_slp (df : List Row) :
    (assignShares df).map Row.stop_loss_profit = df.map Row.stop_loss_profit := by
  simp only [assignShares, List.map_map]
  rfl

/-- The Position rows produced by the pipeline never carry the ticker
`"Total"`: the second strip (line 300) runs after the new row is
appended, and assigning shares does not change tickers. -/
theorem mem_assignShares_filter_no_total {df : List Row} {r : Row}
    (h : r ∈ assignShares (df.filter (fun s => s.ticker ≠ "Total"))) :
    r.ticker ≠ "Total" := by
  obtain ⟨r0, hr0, rfl⟩ := mem_assignShares h
  have h2 := (List.mem_filter.mp hr0).2
  exact of_decide_eq_true h2

/-- When the `$ up/down` column sums to zero, every share assigned by
`assignShares` is 0 (the zero-denominator fallback of line 310). -/
theorem assignShares_profit_zero {df : List Row}
    (hz : (df.map Row.dollar_up_down).sum = 0) :
    ∀ r ∈ assignShares df, r.profit_portfolio = 0 := by
  intro r hr
  obtain ⟨r0, hr0, rfl⟩ := mem_assignShares hr
  simp [hz]

/-- When the `Stop Loss Profit` column sums to zero, every share
assigned by `assignShares` is 0 (the fallback of line 313). -/
theorem assignShares_stoploss_zero {df : List Row}
    (hz : (df.map Row.stop_loss_profit).sum = 0) :
    ∀ r ∈ assignShares df, r.stoploss_portfolio = 0 := by
  intro r hr
  obtain ⟨r0, hr0, rfl⟩ := mem_assignShares hr
  simp [hz]

/-! ## The claims -/

/-- Claim C1: after every successful `add_entry`, the returned ledger
ends in a Total row whose numeric columns each equal the exact sum (a
fortiori the sum within rounding to 2 decimal places) of that column
over the Position rows; `Days` is summed whenever every Position row
has a value there; and the two portfolio-share columns of the Total
row are exactly 100. -/
theorem add_entry_total_row_sums (ledger : List Row) (today : ℤ)
    (inp : EntryInput) (price spy : Option ℚ) (out : List Row)
    (h : add_entry ledger today inp price spy = .ok out) :
    ∃ ps t, out = ps ++ [t] ∧ t.ticker = "Total" ∧
      t.shares = (ps.map Row.shares).sum ∧
      t.buy_price = (ps.map Row.buy_price).sum ∧
      t.current_price = (ps.map Row.current_price).sum ∧
      t.stop_loss = (ps.map Row.stop_loss).sum ∧
      t.stop_loss_profit = (ps.map Row.stop_loss_profit).sum ∧
      t.dollar_up_down = (ps.map Row.dollar_up_down).sum ∧
      t.percent_up_down = (ps.map Row.percent_up_down).sum ∧
      t.stop_loss_percent = (ps.map Row.stop_loss_percent).sum ∧
      t.buy_value = (ps.map Row.buy_value).sum ∧
      t.current_value = (ps.map Row.current_value).sum ∧
      t.spy_perc = (ps.map Row.spy_perc).sum ∧
      (ps.all (fun r => r.days.isSome) = true →
        t.days = some ((ps.map (fun r => r.days.getD 0)).sum)) ∧
      t.profit_portfolio = 100 ∧ t.stoploss_portfolio = 100 := by
  obtain ⟨p, sp, hp, rfl⟩ := add_entry_ok_inv h
  refine ⟨_, _, rfl, rfl, rfl, rfl, rfl, rfl, rfl, rfl, rfl, rfl, rfl, rfl, rfl,
    ?_, rfl, rfl⟩
  intro hd
  simp only [mkTotalRow]
  rw [if_pos hd]

/-- Claim C2: for every input ledger — stale Total rows included — a
successful `add_entry` returns a ledger with exactly one row whose
ticker is `"Total"`, and that row is last; since this holds for every
input, repeated calls never accumulate duplicate Total rows. -/
theorem add_entry_unique_total_last (ledger : List Row) (today : ℤ)
    (inp : EntryInput) (price spy : Option ℚ) (out : List Row)
    (h : add_entry ledger today inp price spy = .ok out) :
    (out.filter (fun r => r.ticker = "Total")).length = 1 ∧
    ∃ t, out.getLast? = some t ∧ t.ticker = "Total" := by
  obtain ⟨p, sp, hp, rfl⟩ := add_entry_ok_inv h
  clear h hp
  generalize (List.filter (fun r => decide (r.ticker ≠ "Total")) ledger ++
    [mkNewRow today inp p spy sp]) = df1
  simp only [computeLedger]
  constructor
  · rw [List.filter_append]
    have hnil : (assignShares ((refreshDays today df1).filter
        (fun s => s.ticker ≠ "Total"))).filter (fun r => r.ticker = "Total") = [] := by
      rw [List.filter_eq_nil_iff]
      intro a ha
      simpa using mem_assignShares_filter_no_total ha
    rw [hnil]
    simp [mkTotalRow]
  · exact ⟨_, List.getLast?_concat _, rfl⟩

/-- Claim C5: on the ledger a successful `add_entry` returns, if the
Position rows' `$ up/down` values sum to exactly zero then every
Position row's `Profit%_Portfolio` is 0 (not undefined), and likewise
for `Stoploss_Portfolio%` when the `Stop Loss Profit` values sum to
zero. -/
theorem add_entry_zero_denominator_shares (ledger : List Row) (today : ℤ)
    (inp : EntryInput) (price spy : Option ℚ) (out : List Row)
    (h : add_entry ledger today inp price spy = .ok out) :
    (((out.dropLast).map Row.dollar_up_down).sum = 0 →
      ∀ r ∈ out.dropLast, r.profit_portfolio = 0) ∧
    (((out.dropLast).map Row.stop_loss_profit).sum = 0 →
      ∀ r ∈ out.dropLast, r.stoploss_portfolio = 0) := by
  obtain ⟨p, sp, hp, rfl⟩ := add_entry_ok_inv h
  simp only [computeLedger, List.dropLast_concat]
  exact ⟨fun hz => assignShares_profit_zero (by rwa [assignShares_map_dollar] at hz),
         fun hz => assignShares_stoploss_zero (by rwa [assignShares_map_slp] at hz)⟩

/-- Claim C8: the row `add_entry` creates starts with `Days = 0` (and
`B_Date = today`), and every Position row of the returned ledger has
its `Days` recomputed as today minus its stored `B_Date` in whole days
(rows without a parseable date get a blank). -/
theorem add_entry_days_refresh (ledger : List Row) (today : ℤ)
    (inp : EntryInput) (price spy : Option ℚ) (out : List Row)
    (h : add_entry ledger today inp price spy = .ok out) :
    (∀ p sp spp, (mkNewRow today inp p sp spp).days = some 0 ∧
                 (mkNewRow today inp p sp spp).b_date = some today) ∧
    ∀ r ∈ out.dropLast, r.days = r.b_date.map (fun d => today - d) := by
  obtain ⟨p, sp, hp, rfl⟩ := add_entry_ok_inv h
  refine ⟨fun _ _ _ => ⟨rfl, rfl⟩, ?_⟩
  simp only [computeLedger, List.dropLast_concat]
  intro r hr
  obtain ⟨r0, hr0, rfl⟩ := mem_assignShares hr
  have hr1 := (List.mem_filter.mp hr0).1
  simp only [refreshDays, List.mem_map] at hr1
  obtain ⟨r1, hr1m, rfl⟩ := hr1
  rfl

set_option maxRecDepth 8000 in
/-- Claim C3: on an empty ledger, adding AAPL with 10 shares at buy
price 100, current price 120 and stop loss 90 yields exactly the row
with buy_value 1000, current_value 1200, dollar_change 200,
percent_change 20, stop_loss_profit -100, stop_loss_percent -10 and
both portfolio shares 100, plus a Total row with dollar_change 200. -/
theorem add_entry_aapl_scenario :
    add_entry [] 0 (EntryInput.mk "AAPL" 10 100 90 0 "") (some 120) none =
    .ok [ Row.mk "AAPL" 10 100 120 90 (-100) 200 20 (-10) 1000 1200
            (some 0) (some 0) none 0 (some 1) 100 100 "",
          Row.mk "Total" 10 100 120 90 (-100) 200 20 (-10) 1000 1200
            none (some 0) none 0 none 100 100 "" ] := by
  simp only [add_entry, computeLedger, refreshDays, assignShares, mkNewRow, mkTotalRow,
    upper, round2, pickPrice]
  norm_num +decide [round_eq]

/-- Claim C4: when the price cannot be resolved (nothing cached and the
quote fetch returns nothing), the operation fails with the
price-unavailable error and the state — stored ledger and session —
is left completely unchanged. -/
theorem add_entry_price_unresolved_no_mutation (s : AppState) (today : ℤ)
    (inp : EntryInput) (spy : Option ℚ) (oc : SaveOutcome)
    (ht : inp.ticker ≠ "") (hc : s.cachedPrice = none) :
    show_add_entry s today inp none spy oc = (s, .failure .priceUnavailable) := by
  simp [show_add_entry, pickPrice, add_entry, ht, hc]

/-- Claim C6 (counterexample to the claim as stated): with
`buy_price = 0` the submitted entry is NOT stored with
`percent_change = 0`; the division raises, the generic handler reports
the error, and the state (including the cached price) is untouched —
no new entry exists anywhere. -/
theorem zero_buy_price_stores_nothing :
    show_add_entry (AppState.mk [] (some 120)) 0 (EntryInput.mk "AAPL" 10 0 90 0 "")
      none none .success = (AppState.mk [] (some 120), .failure .calcError) := by
  norm_num +decide [show_add_entry, pickPrice, add_entry]

/-- Claim C6 (amended): when the submitted position has
`buy_price = 0`, the division by zero is caught by the generic handler
and reported to the caller as an error message rather than crashing,
but no entry is stored: the operation aborts with the ledger and the
session state unchanged (in particular no row with
`percent_change = 0` is created). -/
theorem zero_buy_price_aborts (s : AppState) (today : ℤ) (inp : EntryInput)
    (fetched spy : Option ℚ) (oc : SaveOutcome) (p : ℚ)
    (ht : inp.ticker ≠ "") (hc : s.cachedPrice = some p) (hp : p ≠ 0)
    (hb : inp.buy_price = 0) :
    show_add_entry s today inp fetched spy oc = (s, .failure .calcError) := by
  simp [show_add_entry, pickPrice, add_entry, ht, hc, hp, hb]

/-- Claim C7 (counterexample to the claim as stated): a save in which
`sheet.clear()` succeeded but the subsequent write failed leaves the
store empty — neither the new ledger nor the unchanged old contents. -/
theorem save_data_partial_state_counterexample :
    save_data [Row.mk "IBM" 1 10 12 9 (-1) 2 20 (-10) 10 12 (some 0) (some 0)
                 none 0 (some 1) 0 0 ""]
              [Row.mk "IBM" 1 10 12 9 (-1) 2 20 (-10) 10 12 (some 0) (some 0)
                 none 0 (some 1) 0 0 ""] .writeFail = [] ∧
    ([] : List Row) ≠ [Row.mk "IBM" 1 10 12 9 (-1) 2 20 (-10) 10 12 (some 0) (some 0)
                 none 0 (some 1) 0 0 ""] := by
  exact ⟨rfl, by simp⟩

/-- Claim C7 (amended): every save either replaces the whole table with
the new ledger, or — failing at connect or clear — leaves the stored
contents unchanged, or — when the clear succeeded and the write then
failed — leaves the store empty; that last outcome is a partial state
the original claim rules out. -/
theorem save_data_outcomes (store df : List Row) (oc : SaveOutcome) :
    save_data store df oc = df ∨ save_data store df oc = store ∨
    save_data store df oc = [] := by
  cases oc
  · exact .inl rfl
  · exact .inr (.inl rfl)
  · exact .inr (.inl rfl)
  · exact .inr (.inr rfl)

/-- Claim C9: `get_current_price` returns the unavailable marker when
the quote history is empty, and a price that resolved to exactly 0 is
treated by the falsy check exactly like an unavailable price: the
operation fails with the price-unavailable error. -/
theorem falsy_zero_price_treated_unavailable :
    get_current_price [] = none ∧
    add_entry [] 0 (EntryInput.mk "AAPL" 10 100 90 0 "") (some 0) none =
      .error .priceUnavailable := by
  refine ⟨rfl, ?_⟩
  norm_num +decide [add_entry]

/-- Claim C10: a failing save never propagates out of `save_data`, so
whenever the recomputation succeeds, `show_add_entry` reaches its
success path for every save outcome — it reports success and clears the
cached price — even when the failure left the store unchanged (so the
new ledger was never persisted). -/
theorem save_failure_swallowed_success_path (s : AppState) (today : ℤ)
    (inp : EntryInput) (fetched spy : Option ℚ) (oc : SaveOutcome) (out : List Row)
    (h : add_entry s.store today inp (pickPrice s.cachedPrice fetched) spy = .ok out) :
    show_add_entry s today inp fetched spy oc =
      (AppState.mk (save_data s.store out oc) none, .success) ∧
    (oc = .connectFail → save_data s.store out oc = s.store) := by
  refine ⟨?_, ?_⟩
  · simp [show_add_entry, h]
  · intro hoc
    cases hoc
    rfl

/-! ## Witnesses -/

set_option maxRecDepth 8000 in
/-- Witness for the Total-row sum invariant at a concrete input:
adding MSFT (5 shares, buy 200, current 190, stop loss 180) to an
empty ledger. -/
theorem add_entry_total_row_sums_witness :
    ∃ ps t,
      [ Row.mk "MSFT" 5 200 190 180 (-100) (-50) (-5) (-10) 1000 950
          (some 0) (some 0) none 0 (some 1) 100 100 "",
        Row.mk "Total" 5 200 190 180 (-100) (-50) (-5) (-10) 1000 950
          none (some 0) none 0 none 100 100 "" ] = ps ++ [t] ∧
      t.ticker = "Total" ∧
      t.shares = (ps.map Row.shares).sum ∧
      t.buy_price = (ps.map Row.buy_price).sum ∧
      t.current_price = (ps.map Row.current_price).sum ∧
      t.stop_loss = (ps.map Row.stop_loss).sum ∧
      t.stop_loss_profit = (ps.map Row.stop_loss_profit).sum ∧
      t.dollar_up_down = (ps.map Row.dollar_up_down).sum ∧
      t.percent_up_down = (ps.map Row.percent_up_down).sum ∧
      t.stop_loss_percent = (ps.map Row.stop_loss_percent).sum ∧
      t.buy_value = (ps.map Row.buy_value).sum ∧
      t.current_value = (ps.map Row.current_value).sum ∧
      t.spy_perc = (ps.map Row.spy_perc).sum ∧
      (ps.all (fun r => r.days.isSome) = true →
        t.days = some ((ps.map (fun r => r.days.getD 0)).sum)) ∧
      t.profit_portfolio = 100 ∧ t.stoploss_portfolio = 100 :=
  add_entry_total_row_sums [] 0 (EntryInput.mk "MSFT" 5 200 180 0 "")
    (some 190) none _ (by
      simp only [add_entry, computeLedger, refreshDays, assignShares, mkNewRow,
        mkTotalRow, upper, round2]
      norm_num +decide [round_eq])

set_option maxRecDepth 8000 in
/-- Witness for Total-row uniqueness at a concrete input: the input
ledger already holds a stale Total row, which does not survive. -/
theorem add_entry_unique_total_last_witness :
    ([ Row.mk "AAPL" 10 100 120 90 (-100) 200 20 (-10) 1000 1200
         (some 0) (some 0) none 0 (some 1) 100 100 "",
       Row.mk "Total" 10 100 120 90 (-100) 200 20 (-10) 1000 1200
         none (some 0) none 0 none 100 100 "" ].filter
        (fun r => r.ticker = "Total")).length = 1 ∧
    ∃ t,
      [ Row.mk "AAPL" 10 100 120 90 (-100) 200 20 (-10) 1000 1200
          (some 0) (some 0) none 0 (some 1) 100 100 "",
        Row.mk "Total" 10 100 120 90 (-100) 200 20 (-10) 1000 1200
          none (some 0) none 0 none 100 100 "" ].getLast? = some t ∧
      t.ticker = "Total" :=
  add_entry_unique_total_last
    [Row.mk "Total" 0 0 0 0 0 0 0 0 0 0 none none none 0 none 100 100 ""] 0
    (EntryInput.mk "AAPL" 10 100 90 0 "") (some 120) none _ (by
      simp only [add_entry, computeLedger, refreshDays, assignShares, mkNewRow,
        mkTotalRow, upper, round2]
      norm_num +decide [round_eq])

set_option maxRecDepth 8000 in
/-- Witness for the zero-denominator fallback at a concrete input:
TSLA bought at 100 with current price 100 and stop loss 100, so both
ledger-wide sums are exactly 0 and both shares are 0. -/
theorem add_entry_zero_denominator_shares_witness :
    ((([ Row.mk "TSLA" 10 100 100 100 0 0 0 0 1000 1000
           (some 0) (some 0) none 0 (some 1) 0 0 "",
         Row.mk "Total" 10 100 100 100 0 0 0 0 1000 1000
           none (some 0) none 0 none 100 100 "" ].dropLast).map
            Row.dollar_up_down).sum = 0 →
      ∀ r ∈ [ Row.mk "TSLA" 10 100 100 100 0 0 0 0 1000 1000
                (some 0) (some 0) none 0 (some 1) 0 0 "",
              Row.mk "Total" 10 100 100 100 0 0 0 0 1000 1000
                none (some 0) none 0 none 100 100 "" ].dropLast,
        r.profit_portfolio = 0) ∧
    ((([ Row.mk "TSLA" 10 100 100 100 0 0 0 0 1000 1000
           (some 0) (some 0) none 0 (some 1) 0 0 "",
         Row.mk "Total" 10 100 100 100 0 0 0 0 1000 1000
           none (some 0) none 0 none 100 100 "" ].dropLast).map
            Row.stop_loss_profit).sum = 0 →
      ∀ r ∈ [ Row.mk "TSLA" 10 100 100 100 0 0 0 0 1000 1000
                (some 0) (some 0) none 0 (some 1) 0 0 "",
              Row.mk "Total" 10 100 100 100 0 0 0 0 1000 1000
                none (some 0) none 0 none 100 100 "" ].dropLast,
        r.stoploss_portfolio = 0) :=
  add_entry_zero_denominator_shares [] 0 (EntryInput.mk "TSLA" 10 100 100 0 "")
    (some 100) none _ (by
      simp only [add_entry, computeLedger, refreshDays, assignShares, mkNewRow,
        mkTotalRow, upper, round2]
      norm_num +decide [round_eq])

set_option maxRecDepth 8000 in
/-- Witness for the Days refresh at a concrete input: a pre-existing
IBM row bought three days ago (with a stale `Days` of 99) is refreshed
to 3, and the new GOOG row starts at 0. -/
theorem add_entry_days_refresh_witness :
    (∀ p sp spp,
      (mkNewRow 0 (EntryInput.mk "GOOG" 2 50 40 0 "") p sp spp).days = some 0 ∧
      (mkNewRow 0 (EntryInput.mk "GOOG" 2 50 40 0 "") p sp spp).b_date = some 0) ∧
    ∀ r ∈ [ Row.mk "IBM" 1 10 12 9 (-1) 2 20 (-10) 10 12 (some (-3)) (some 3)
              none 0 (some 1) (909/100) (119/25) "",
            Row.mk "GOOG" 2 50 60 40 (-20) 20 20 (-20) 100 120 (some 0) (some 0)
              none 0 (some 1) (9091/100) (2381/25) "",
            Row.mk "Total" 3 60 72 49 (-21) 22 40 (-30) 110 132 none (some 3)
              none 0 none 100 100 "" ].dropLast,
      r.days = r.b_date.map (fun d => (0:ℤ) - d) :=
  add_entry_days_refresh
    [Row.mk "IBM" 1 10 12 9 (-1) 2 20 (-10) 10 12 (some (-3)) (some 99)
       none 0 (some 1) 0 0 ""] 0
    (EntryInput.mk "GOOG" 2 50 40 0 "") (some 60) none _ (by
      simp only [add_entry, computeLedger, refreshDays, assignShares, mkNewRow,
        mkTotalRow, upper, round2]
      norm_num +decide [round_eq])

/-- Witness for the unresolved-price abort at a concrete input. -/
theorem add_entry_price_unresolved_no_mutation_witness :
    show_add_entry (AppState.mk [] none) 0 (EntryInput.mk "AAPL" 10 100 90 0 "")
      none none .success = (AppState.mk [] none, .failure .priceUnavailable) :=
  add_entry_price_unresolved_no_mutation (AppState.mk [] none) 0
    (EntryInput.mk "AAPL" 10 100 90 0 "") none .success (by decide) rfl

/-- Witness for the zero-buy-price abort at a concrete input. -/
theorem zero_buy_price_aborts_witness :
    show_add_entry (AppState.mk [] (some 120)) 5 (EntryInput.mk "MSFT" 3 0 10 0 "x")
      none none .clearFail = (AppState.mk [] (some 120), .failure .calcError) :=
  zero_buy_price_aborts (AppState.mk [] (some 120)) 5
    (EntryInput.mk "MSFT" 3 0 10 0 "x") none none .clearFail 120 (by decide) rfl
    (by norm_num) rfl

set_option maxRecDepth 8000 in
/-- Witness for the swallowed save failure at a concrete input: the
connect fails, yet the outcome is success, the cached price is cleared,
and the store still holds its old (empty) contents. -/
theorem save_failure_swallowed_success_path_witness :
    show_add_entry (AppState.mk [] (some 120)) 0 (EntryInput.mk "AAPL" 10 100 90 0 "")
      none none .connectFail =
      (AppState.mk
        (save_data []
          [ Row.mk "AAPL" 10 100 120 90 (-100) 200 20 (-10) 1000 1200
              (some 0) (some 0) none 0 (some 1) 100 100 "",
            Row.mk "Total" 10 100 120 90 (-100) 200 20 (-10) 1000 1200
              none (some 0) none 0 none 100 100 "" ] .connectFail) none, .success) ∧
    (SaveOutcome.connectFail = .connectFail →
      save_data []
        [ Row.mk "AAPL" 10 100 120 90 (-100) 200 20 (-10) 1000 1200
            (some 0) (some 0) none 0 (some 1) 100 100 "",
          Row.mk "Total" 10 100 120 90 (-100) 200 20 (-10) 1000 1200
            none (some 0) none 0 none 100 100 "" ] .connectFail = []) :=
  save_failure_swallowed_success_path (AppState.mk [] (some 120)) 0
    (EntryInput.mk "AAPL" 10 100 90 0 "") none none .connectFail _ (by
      simp only [add_entry, computeLedger, refreshDays, assignShares, mkNewRow,
        mkTotalRow, upper, round2, pickPrice]
      norm_num +decide [round_eq])
